import Mathlib

/-
  Verification of the YTC trading workflow engine.

  Shallow embedding of the phase-sequenced workflow engine:
  `src/agents/base.py` (BaseAgent execution contract) and
  `src/agents/orchestrator.py` (MasterOrchestrator routing, phase
  transitions, emergency handling), together with the state-mutation
  footprint of the individual agents under `src/agents/`.

  Conventions of the embedding:
  * Python floats are rationals (ℚ); ISO timestamp strings are abstracted
    to rational time values threaded as an explicit `now` argument.
  * Python dicts whose key sets matter (agent_outputs) are association
    lists with Python dict assignment semantics (overwrite in place,
    append new keys at the end).
  * A Python exception is an explicit `PyError` value; code that may raise
    returns `Except PyError _` or a `LogicResult` carrying the state as it
    stood when the exception was raised (in this codebase every fallible
    operation inside an agent precedes that agent's state writes).
  * Dict records whose optional keys matter (alerts, agent output records)
    are structures with `Option` fields: `none` models an absent key.
-/

namespace YTC

/-- The five trading-day phases of `TradingState.phase` (base.py line 34,
orchestrator phase logic). -/
inductive Phase
  | pre_market
  | session_open
  | active_trading
  | post_market
  | shutdown
deriving DecidableEq, Repr

/-- A raised Python exception: `str(e)` and `type(e).__name__`. -/
structure PyError where
  message : String
  kind : String
deriving DecidableEq, Repr

/-- An entry of `state['alerts']`.  `BaseAgent.add_alert` writes all four
keys; `BaseAgent._handle_error` writes only severity, message and
timestamp, which is modelled by `agent_id := none`. -/
structure Alert where
  severity : String
  message : String
  timestamp : ℚ
  agent_id : Option String
deriving DecidableEq, Repr

/-- The `error_info` record built by `BaseAgent._handle_error`. -/
structure ErrorInfo where
  timestamp : ℚ
  agent_id : String
  error : String
  error_type : String
deriving DecidableEq, Repr

/-- A scanned setup as read by `EntryExecutionAgent._execute_logic`
(`setup['type']`, `setup['direction']`, `setup['entry_zone']`); other keys
of the setup dict are not consulted by the embedded code paths. -/
structure Setup where
  setup_type : String
  direction : String
  entry_zone : ℚ
deriving DecidableEq, Repr

/-- An agent result payload (the dict returned by `_execute_logic`).
Only the keys the embedded engine code reads are modelled: `status`
(consulted by `_update_state` and by downstream agents), `error`,
`reason`, and `setups` (read by entry execution from the scanner result).
All other payload keys are inert data never consulted by the engine. -/
structure Payload where
  status : Option String
  error : Option String
  reason : Option String
  setups : List Setup
deriving DecidableEq, Repr

/-- A payload with only a `status` key set. -/
def Payload.ofStatus (st : String) : Payload :=
  { status := some st, error := none, reason := none, setups := [] }

/-- An entry of `state['agent_outputs']`: written by
`BaseAgent._update_state` (timestamp, result, status) or by
`BaseAgent._handle_error` (timestamp, status, error). -/
structure AgentOutput where
  timestamp : ℚ
  result : Option Payload
  status : String
  error : Option ErrorInfo
deriving DecidableEq, Repr

/-- A closed-trade record of `state['trades_today']`; risk management
reads `trade.get('pnl', 0)`. -/
structure Trade where
  pnl : Option ℚ
deriving DecidableEq, Repr

/-- An open-position record of `state['positions']`, with the keys the
exit/trade-management/risk agents read. -/
structure Position where
  id : Option String
  direction : String
  entry_price : ℚ
  stop_loss : ℚ
  target_2 : Option ℚ
  entry_time : ℚ
  position_size_lots : ℚ
  risk_amount : Option ℚ
  notional_value : Option ℚ
deriving DecidableEq, Repr

/-- The `state['system_health']` dict: `{'status': ..., 'timestamp': ...}`. -/
structure SystemHealth where
  status : String
  timestamp : Option ℚ
deriving DecidableEq, Repr

/-- The shared `TradingState` record (base.py lines 27-72), threaded
through every step of the workflow. -/
structure TradingState where
  session_id : String
  phase : Phase
  start_time : ℚ
  current_time : ℚ
  account_balance : ℚ
  initial_balance : ℚ
  session_pnl : ℚ
  session_pnl_pct : ℚ
  risk_params : List (String × ℚ)
  risk_utilization : ℚ
  max_session_risk_pct : ℚ
  risk_per_trade_pct : ℚ
  market : String
  instrument : String
  market_structure : Option Payload
  trend : Option Payload
  strength_weakness : Option Payload
  positions : List Position
  open_positions_count : Nat
  pending_orders : List Payload
  trades_today : List Trade
  agent_outputs : List (String × AgentOutput)
  alerts : List Alert
  system_health : SystemHealth
  emergency_stop : Bool
  stop_reason : Option String
deriving DecidableEq, Repr

/-- Lookup in a Python dict modelled as an association list. -/
def dictGet {α : Type} : List (String × α) → String → Option α
  | [], _ => none
  | p :: rest, k => if p.1 = k then some p.2 else dictGet rest k

/-- Key-membership test (`k in d`). -/
def dictContains {α : Type} (m : List (String × α)) (k : String) : Bool :=
  (dictGet m k).isSome

/-- Python dict assignment `d[k] = v`: overwrite in place if the key
exists, else append the new key at the end. -/
def dictInsert {α : Type} (m : List (String × α)) (k : String) (v : α) :
    List (String × α) :=
  if dictContains m k then
    m.map (fun p => if p.1 = k then (k, v) else p)
  else
    m ++ [(k, v)]

/-! ## BaseAgent execution contract (src/agents/base.py) -/

/-- Outcome of running an agent's internal logic (`_execute_logic`).
Python mutates the state in place, so both outcomes carry the state as it
stands when the logic returns or raises. -/
inductive LogicResult
  | ok (s : TradingState) (result : Payload)
  | raised (s : TradingState) (e : PyError)

/-- BaseAgent.add_alert (base.py lines 359-386): appends an alert record
with all four keys, `agent_id` being the acting agent's id. -/
def add_alert (aid : String) (now : ℚ) (severity message : String)
    (s : TradingState) : TradingState :=
  { s with alerts := s.alerts ++
      [{ severity := severity, message := message, timestamp := now,
         agent_id := some aid }] }

/-- BaseAgent._update_state (base.py lines 248-275): record the agent's
output under its own id (keys timestamp/result/status, the status taken
from the payload with default "success") and refresh `current_time`. -/
def update_state (aid : String) (now : ℚ) (s : TradingState)
    (result : Payload) : TradingState :=
  { s with
    agent_outputs := dictInsert s.agent_outputs aid
      { timestamp := now, result := some result,
        status := result.status.getD "success", error := none },
    current_time := now }

/-- BaseAgent._handle_error (base.py lines 300-340): append a critical
alert (note: without an `agent_id` key) and record an error output entry
(keys timestamp/status/error, no `result` key) under the agent's id. -/
def handle_error (aid : String) (now : ℚ) (s : TradingState)
    (e : PyError) : TradingState :=
  { s with
    alerts := s.alerts ++
      [{ severity := "critical",
         message := "Agent " ++ aid ++ " failed: " ++ e.message,
         timestamp := now, agent_id := none }],
    agent_outputs := dictInsert s.agent_outputs aid
      { timestamp := now, result := none, status := "error",
        error := some { timestamp := now, agent_id := aid,
                        error := e.message, error_type := e.kind } } }

/-- BaseAgent.execute (base.py lines 129-164): run `_execute_logic` inside
a catch-all; on success record the output via `_update_state`, on any
exception swallow it via `_handle_error`.  Totality of this function is
the embedding of "the step never propagates the fault to the caller". -/
def execute (aid : String) (logic : TradingState → LogicResult) (now : ℚ)
    (s : TradingState) : TradingState :=
  match logic s with
  | .ok s2 result => update_state aid now s2 result
  | .raised s2 e => handle_error aid now s2 e

/-! ## Session-state construction (MasterOrchestrator._initialize_state) -/

/-- Configuration values read by `MasterOrchestrator` (`none` means the
key is absent from the config dict and the source default applies). -/
structure Config where
  initial_balance : Option ℚ
  max_session_risk_pct : Option ℚ
  risk_per_trade_pct : Option ℚ
  market : Option String
  instrument : Option String
  duration_hours : Option ℚ
  risk_params : List (String × ℚ)
deriving Repr

/-- The default configuration: every key absent. -/
def Config.empty : Config :=
  { initial_balance := none, max_session_risk_pct := none,
    risk_per_trade_pct := none, market := none, instrument := none,
    duration_hours := none, risk_params := [] }

/-- MasterOrchestrator._initialize_state (orchestrator.py lines 47-103);
`sid` stands for the fresh `uuid4` and `now` for the creation time. -/
def initialize_state (cfg : Config) (sid : String) (now : ℚ) :
    TradingState :=
  { session_id := sid
    phase := .pre_market
    start_time := now
    current_time := now
    account_balance := cfg.initial_balance.getD 100000
    initial_balance := cfg.initial_balance.getD 100000
    session_pnl := 0
    session_pnl_pct := 0
    risk_params := cfg.risk_params
    risk_utilization := 0
    max_session_risk_pct := cfg.max_session_risk_pct.getD 3
    risk_per_trade_pct := cfg.risk_per_trade_pct.getD 1
    market := cfg.market.getD "forex"
    instrument := cfg.instrument.getD "ETH-USDT"
    market_structure := none
    trend := none
    strength_weakness := none
    positions := []
    open_positions_count := 0
    pending_orders := []
    trades_today := []
    agent_outputs := []
    alerts := []
    system_health := { status := "initializing", timestamp := none }
    emergency_stop := false
    stop_reason := none }

/-! ## Number formatting used in alert and stop-reason messages -/

/-- Left-pad a decimal digit string with zeros to the given width. -/
def padZeros (s : String) (len : Nat) : String :=
  if s.length ≥ len then s
  else String.mk (List.replicate (len - s.length) '0') ++ s

/-- Round to the nearest integer, ties to even (CPython float formatting). -/
def roundHalfEven (q : ℚ) : ℤ :=
  let fl := ⌊q⌋
  let r := q - fl
  if r > 1/2 then fl + 1
  else if r < 1/2 then fl
  else if fl % 2 = 0 then fl else fl + 1

/-- Python fixed-point formatting `f"{q:.Nf}"`. -/
def pyFormatFixed (decimals : Nat) (q : ℚ) : String :=
  let scale : ℤ := (10 : ℤ) ^ decimals
  let n := roundHalfEven (q * (scale : ℚ))
  let sign := if n < 0 then "-" else ""
  let m := n.natAbs
  let ip := m / scale.natAbs
  let fp := m % scale.natAbs
  sign ++ toString ip ++
    (if decimals = 0 then "" else "." ++ padZeros (toString fp) decimals)

/-! ## MasterOrchestrator control nodes and routers
    (src/agents/orchestrator.py) -/

/-- MasterOrchestrator._is_market_open (orchestrator.py lines 466-477):
the placeholder implementation always returns True. -/
def is_market_open : Bool := true

/-- MasterOrchestrator._check_phase_transition (orchestrator.py lines
344-389).  `durationHours` is `session_config.get('duration_hours', 3)`
and `nowT` is the wall-clock time of this check; the elapsed-time test is
`now - start_time > duration_hours`.  Note the session_open branch tests
for the key "trend" in agent_outputs, exactly as in the source. -/
def check_phase_transition (durationHours : ℚ) (nowT : ℚ)
    (s : TradingState) : TradingState :=
  match s.phase with
  | .pre_market =>
      if is_market_open then { s with phase := .session_open } else s
  | .session_open =>
      if dictContains s.agent_outputs "trend" then
        { s with phase := .active_trading }
      else s
  | .active_trading =>
      if nowT - s.start_time > durationHours then
        { s with phase := .post_market }
      else s
  | .post_market =>
      if dictContains s.agent_outputs "session_review" then
        { s with phase := .shutdown }
      else s
  | .shutdown => s

/-- MasterOrchestrator._check_emergency (orchestrator.py lines 391-416):
flag the emergency latch on session-loss-limit breach, then (separately)
on critical system health; the second branch overwrites `stop_reason`. -/
def check_emergency (s : TradingState) : TradingState :=
  let s1 :=
    if s.session_pnl_pct ≤ -s.max_session_risk_pct then
      { s with emergency_stop := true,
               stop_reason := some ("Session loss limit reached: " ++
                 pyFormatFixed 2 s.session_pnl_pct ++ "%") }
    else s
  if s1.system_health.status = "critical" then
    { s1 with emergency_stop := true,
              stop_reason := some "Critical system health issue" }
  else s1

/-- MasterOrchestrator._route_emergency (orchestrator.py lines 418-430). -/
def route_emergency (s : TradingState) : String :=
  if s.emergency_stop then "stop" else "continue"

/-- Evaluation of a LangGraph conditional edge: the router is called on
the state and only its returned label is consumed; the state flows on
unchanged. -/
def apply_route_emergency (s : TradingState) : String × TradingState :=
  (route_emergency s, s)

/-- MasterOrchestrator._route_by_phase (orchestrator.py lines 432-445). -/
def route_by_phase (s : TradingState) : Phase :=
  s.phase

/-- MasterOrchestrator._after_logging_route (orchestrator.py lines
447-464): increment the orchestrator-level cycle counter, then answer
"end" if the phase is shutdown or the counter exceeds 5.  The counter is
the instance attribute `_workflow_cycles`, threaded here explicitly. -/
def after_logging_route (cycles : Nat) (ph : Phase) : Nat × String :=
  let c := cycles + 1
  if ph = .shutdown ∨ c > 5 then (c, "end") else (c, "continue")

/-- MasterOrchestrator.emergency_shutdown (orchestrator.py lines 479-497):
force the latch, the stop reason and the shutdown phase. -/
def emergency_shutdown (reason : String) (s : TradingState) :
    TradingState :=
  { s with emergency_stop := true, stop_reason := some reason,
           phase := .shutdown }

/-- Iterated evaluation of the continue/end router within one external
workflow invocation.  `phases n` is the phase observed at the router
evaluation whose pre-increment counter is `n`; `fuel` is LangGraph's
`recursion_limit` (100 in `process_cycle`/`start_session`).  Returns
`some (loopBacks, finalCounter)` when the traversal reaches "end", and
`none` when the recursion limit is exhausted (LangGraph raises). -/
def routerIter (phases : Nat → Phase) : Nat → Nat → Option (Nat × Nat)
  | _, 0 => none
  | c, fuel + 1 =>
    let r := after_logging_route c (phases c)
    if r.2 = "end" then some (0, r.1)
    else
      match routerIter phases r.1 fuel with
      | none => none
      | some kcf => some (kcf.1 + 1, kcf.2)

/-- Two consecutive external invocations (`process_cycle` twice): the
cycle counter is an orchestrator instance attribute, so the second
traversal resumes from the counter value the first one left behind
(`__init__` sets it to 0 once; `process_cycle` never resets it).
Returns the number of internal loop-backs granted to each invocation. -/
def twoCycleLoopBacks (phases1 phases2 : Nat → Phase) :
    Option (Nat × Nat) :=
  match routerIter phases1 0 100 with
  | none => none
  | some kc1 =>
    match routerIter phases2 kc1.2 100 with
    | none => none
    | some kc2 => some (kc1.1, kc2.1)

/-! ## Python attribute model and the gateway price-fetch prologue -/

/-- Payload `{'status': 'error', 'error': msg, ...}` returned by the
agents' internal except-branches. -/
def Payload.ofError (msg : String) : Payload :=
  { status := some "error", error := some msg, reason := none,
    setups := [] }

/-- Payload `{'status': 'no_action', 'reason': why, ...}`. -/
def Payload.noAction (why : String) : Payload :=
  { status := some "no_action", error := none, reason := some why,
    setups := [] }

/-- Evaluating `self.<attrName>`: Python raises AttributeError when the
attribute was never assigned.  (Python renders the message with quotes
around the class and attribute names; the quotes are elided here.) -/
def attribute_lookup (attrs : List String) (className attrName : String) :
    Except PyError Unit :=
  if attrName ∈ attrs then .ok ()
  else .error
    { message := className ++ " object has no attribute " ++ attrName,
      kind := "AttributeError" }

/-- The instance attributes assigned by `BaseAgent.__init__`
(base.py lines 92-127).  `gateway_client` is not among them. -/
def baseAgentAttrs : List String :=
  ["agent_id", "config", "logger", "client", "model", "max_tokens",
   "timeout", "retry_attempts", "mcp_enabled", "mcp_client"]

/-- Attributes of EntryExecutionAgent (entry_execution.py lines 23-29). -/
def entryExecutionAttrs : List String :=
  baseAgentAttrs ++ ["use_limit_orders", "entry_offset_ticks",
    "max_attempts", "hummingbot_url", "connector"]

/-- Attributes of ExitExecutionAgent (exit_execution.py lines 23-27). -/
def exitExecutionAttrs : List String :=
  baseAgentAttrs ++ ["exit_types", "hummingbot_url", "connector"]

/-- Attributes of TrendDefinitionAgent (trend_definition.py lines 24-30). -/
def trendDefinitionAttrs : List String :=
  baseAgentAttrs ++ ["swing_bars", "confirmation_bars", "min_strength",
    "pivot_skill"]

/-- Attributes of SetupScannerAgent (setup_scanner.py lines 24-29). -/
def setupScannerAttrs : List String :=
  baseAgentAttrs ++ ["min_score", "enabled_patterns", "fib_skill"]

/-- Attributes of TradeManagementAgent (trade_management.py). -/
def tradeManagementAttrs : List String :=
  baseAgentAttrs ++ ["breakeven_at_r", "partial_exit_pct",
    "trailing_method"]

/-- The shared price-fetch prologue (`current_price = 1.25; if
self.gateway_client: ...` in entry/exit/trade-management/trend/scanner
code): evaluating the attribute raises when it is absent; when present
and truthy the gateway is consulted inside its own try/except (that
branch is opaque via `fetched`, being unreachable in this codebase). -/
def gateway_price_fetch (attrs : List String) (className : String)
    (fetched : ℚ) : Except PyError ℚ :=
  match attribute_lookup attrs className "gateway_client" with
  | .error e => .error e
  | .ok _ => .ok fetched

/-! ## Per-agent `_execute_logic` embeddings

Each definition follows the corresponding agent's `_execute_logic` down
to its state writes and the payload keys the engine consults; analysis
values computed from external collaborators (gateway checks, news feeds,
pandas mock data) are opaque parameters.  In every agent, all fallible
operations precede the agent's state writes, so an uncaught exception is
modelled as `LogicResult.raised` with the input state unchanged. -/

/-- SystemInitAgent._execute_logic (system_init.py lines 30-83): when all
collaborator checks pass, store the fetched balance (if the balance dict
had a `balance` key) and mark system health healthy; otherwise append a
critical alert via `add_alert`.  Check outcomes are opaque parameters. -/
def system_init_logic (checksPassed : Bool) (fetchedBalance : Option ℚ)
    (r : Payload) (now : ℚ) (s : TradingState) : LogicResult :=
  if checksPassed then
    .ok { s with account_balance := fetchedBalance.getD s.account_balance,
                 system_health := { status := "healthy",
                                    timestamp := some now } } r
  else
    .ok (add_alert "system_init" now "critical"
          "System initialization failed" s) r

/-- RiskManagementAgent._calculate_risk_parameters
(risk_management.py lines 78-113). -/
def calculate_risk_parameters (maxPositions : Nat) (s : TradingState) :
    List (String × ℚ) :=
  let rptDollars := s.account_balance * (s.risk_per_trade_pct / 100)
  let msrDollars := s.account_balance * (s.max_session_risk_pct / 100)
  [("account_balance", s.account_balance),
   ("risk_per_trade_pct", s.risk_per_trade_pct),
   ("risk_per_trade_dollars", rptDollars),
   ("max_session_risk_pct", s.max_session_risk_pct),
   ("max_session_risk_dollars", msrDollars),
   ("remaining_session_risk", msrDollars + min 0 s.session_pnl),
   ("max_positions", (maxPositions : ℚ))]

/-- The session-risk metrics consulted downstream
(RiskManagementAgent._calculate_session_risk, lines 114-153). -/
structure SessionRisk where
  session_pnl_pct : ℚ
  open_positions : Nat
  exposure_pct : ℚ
  risk_utilization_pct : ℚ
deriving DecidableEq, Repr

/-- RiskManagementAgent._calculate_session_risk (lines 114-153), kept to
the metrics read by `_check_risk_limits` and the state write. -/
def calculate_session_risk (s : TradingState) : SessionRisk :=
  let pnlPct := if s.account_balance > 0 then
    (s.session_pnl / s.account_balance) * 100 else 0
  let exposure := (s.positions.map (fun p => |p.notional_value.getD 0|)).sum
  let exposurePct := if s.account_balance > 0 then
    (exposure / s.account_balance) * 100 else 0
  let riskUsed := |min 0 pnlPct|
  let util := if s.max_session_risk_pct > 0 then
    (riskUsed / s.max_session_risk_pct) * 100 else 0
  { session_pnl_pct := pnlPct, open_positions := s.positions.length,
    exposure_pct := exposurePct, risk_utilization_pct := util }

/-- Count of trailing losing trades
(RiskManagementAgent._count_consecutive_losses, lines 217-238). -/
def consecutiveLossesAux : List Trade → Nat
  | [] => 0
  | t :: rest => if t.pnl.getD 0 < 0 then 1 + consecutiveLossesAux rest
                 else 0

/-- Count consecutive losses scanning trades from the most recent. -/
def count_consecutive_losses (trades : List Trade) : Nat :=
  consecutiveLossesAux trades.reverse

/-- The checks record consulted downstream (`can_trade`, `reason`). -/
structure RiskChecks where
  can_trade : Bool
  reason : Option String
deriving DecidableEq, Repr

/-- RiskManagementAgent._check_risk_limits (lines 155-215): four limit
checks, each overwriting `can_trade`/`reason`. -/
def check_risk_limits (maxPositions : Nat) (maxExposurePct : ℚ)
    (consecutiveLossLimit : Nat) (s : TradingState) (sr : SessionRisk) :
    RiskChecks :=
  let c0 : RiskChecks := { can_trade := true, reason := none }
  let c1 := if sr.session_pnl_pct ≤ -s.max_session_risk_pct then
    { can_trade := false, reason := some "Session stop loss limit reached" }
    else c0
  let c2 := if sr.open_positions ≥ maxPositions then
    { can_trade := false, reason := some "Maximum position count reached" }
    else c1
  let c3 := if sr.exposure_pct ≥ maxExposurePct then
    { can_trade := false, reason := some "Maximum exposure limit reached" }
    else c2
  if count_consecutive_losses s.trades_today ≥ consecutiveLossLimit then
    { can_trade := false, reason := some "Consecutive loss limit reached" }
  else c3

/-- RiskManagementAgent._execute_logic (risk_management.py lines 29-77):
write `risk_params` and `risk_utilization`, then append a warning alert
when utilization exceeds 70 and a critical alert when trading is halted
(a `None` reason prints as "None" in the f-string). -/
def risk_mgmt_logic (maxPositions : Nat) (maxExposurePct : ℚ)
    (consecutiveLossLimit : Nat) (r : Payload) (now : ℚ)
    (s : TradingState) : LogicResult :=
  let sr := calculate_session_risk s
  let rc := check_risk_limits maxPositions maxExposurePct
    consecutiveLossLimit s sr
  let s1 := { s with risk_params := calculate_risk_parameters maxPositions s,
                     risk_utilization := sr.risk_utilization_pct }
  let s2 := if sr.risk_utilization_pct > 70 then
    add_alert "risk_mgmt" now "warning"
      ("Risk utilization at " ++
        pyFormatFixed 1 sr.risk_utilization_pct ++ "%") s1
    else s1
  let s3 := if rc.can_trade then s2 else
    add_alert "risk_mgmt" now "critical"
      ("Trading halted: " ++ rc.reason.getD "None") s2
  .ok s3 r

/-- MarketStructureAgent._execute_logic (market_structure.py lines
41-125): on success write the analysis result to `market_structure`; an
internal exception is caught by the method's own try/except and becomes
an error payload without a state write. -/
def market_structure_logic (outcome : Except PyError Payload)
    (s : TradingState) : LogicResult :=
  match outcome with
  | .ok r => .ok { s with market_structure := some r } r
  | .error e => .ok s (Payload.ofError e.message)

/-- EconomicCalendarAgent._execute_logic (economic_calendar.py lines
30-97): append a warning alert when trading is restricted; events come
from an external feed, hence opaque parameters. -/
def economic_calendar_logic (restricted : Bool) (restrictionReason : String)
    (r : Payload) (now : ℚ) (s : TradingState) : LogicResult :=
  if restricted then
    .ok (add_alert "economic_calendar" now "warning"
          ("Trading restricted: " ++ restrictionReason) s) r
  else .ok s r

/-- TrendDefinitionAgent._execute_logic (trend_definition.py lines
32-122): `_fetch_trading_tf_data` consults `self.gateway_client` first;
the resulting AttributeError is absorbed by the method's own try/except
into an error payload with no state write.  Were the fetch to succeed,
the computed analysis (opaque `analysis`) would be written to
`state['trend']`. -/
def trend_definition_logic (attrs : List String) (fetched : ℚ)
    (analysis : Payload) (s : TradingState) : LogicResult :=
  match gateway_price_fetch attrs "TrendDefinitionAgent" fetched with
  | .error e => .ok s (Payload.ofError e.message)
  | .ok _ => .ok { s with trend := some analysis } analysis

/-- StrengthWeaknessAgent._execute_logic (strength_weakness.py lines
34-96): on success write the analysis to `strength_weakness`; internal
exceptions become an error payload without a state write. -/
def strength_weakness_logic (outcome : Except PyError Payload)
    (s : TradingState) : LogicResult :=
  match outcome with
  | .ok r => .ok { s with strength_weakness := some r } r
  | .error e => .ok s (Payload.ofError e.message)

/-- SetupScannerAgent._execute_logic (setup_scanner.py lines 31-135):
guard on trend data; the scan phase consults the gateway price whenever a
scan path needs the current price (`scanNeedsPrice`), and the resulting
AttributeError is absorbed by the method's try/except into an error
payload.  Scan outcomes on paths not consulting the gateway are opaque
(`scanned`); the scanner writes no state field. -/
def setup_scanner_payload (attrs : List String) (scanNeedsPrice : Bool)
    (fetched : ℚ) (scanned : Payload) (s : TradingState) : Payload :=
  let trendOk : Bool := match s.trend with
    | some p => decide (p.status = some "success")
    | none => false
  if ¬ trendOk then
    Payload.ofError "Trend data not available"
  else if scanNeedsPrice then
    match gateway_price_fetch attrs "SetupScannerAgent" fetched with
    | .error e => Payload.ofError e.message
    | .ok _ => scanned
  else scanned

/-- The scanner writes no state field; its outcome is the payload above. -/
def setup_scanner_logic (attrs : List String) (scanNeedsPrice : Bool)
    (fetched : ℚ) (scanned : Payload) (s : TradingState) : LogicResult :=
  .ok s (setup_scanner_payload attrs scanNeedsPrice fetched scanned s)

/-- EntryExecutionAgent._execute_logic (entry_execution.py lines 31-121):
guards on the scanner output, then `_check_entry_trigger` on the best
setup; for a pullback setup the trigger check consults the gateway price
first, and the AttributeError is absorbed by the method's try/except into
an error payload.  The continuation after a successful price fetch
(unreachable here) is opaque via `rest`.  No state field is written. -/
def entry_execution_payload (attrs : List String) (fetched : ℚ)
    (rest : ℚ → Payload) (s : TradingState) : Payload :=
  match dictGet s.agent_outputs "setup_scanner" with
  | none => Payload.noAction "No setup scanner output available"
  | some scannerOut =>
    let setups := match scannerOut.result with
      | some p => p.setups
      | none => []
    match setups with
    | [] => Payload.noAction "No high-quality setups found"
    | best :: _ =>
      if best.setup_type = "pullback" then
        match gateway_price_fetch attrs "EntryExecutionAgent" fetched with
        | .error e => Payload.ofError e.message
        | .ok price => rest price
      else
        { status := some "waiting", error := none,
          reason := some "Entry trigger", setups := [] }

/-- Entry execution writes no state field; its outcome is the payload
above. -/
def entry_execution_logic (attrs : List String) (fetched : ℚ)
    (rest : ℚ → Payload) (s : TradingState) : LogicResult :=
  .ok s (entry_execution_payload attrs fetched rest s)

/-- TradeManagementAgent._execute_logic (trade_management.py lines
29-78): with no open positions return a no-action payload; otherwise
`_manage_position` consults the gateway price first, and the
AttributeError is absorbed by the method's try/except into an error
payload.  No state field is written. -/
def trade_management_payload (attrs : List String) (fetched : ℚ)
    (rest : ℚ → Payload) (s : TradingState) : Payload :=
  match s.positions with
  | [] => Payload.noAction "No open positions"
  | _ :: _ =>
    match gateway_price_fetch attrs "TradeManagementAgent" fetched with
    | .error e => Payload.ofError e.message
    | .ok price => rest price

/-- Trade management writes no state field; its outcome is the payload
above. -/
def trade_management_logic (attrs : List String) (fetched : ℚ)
    (rest : ℚ → Payload) (s : TradingState) : LogicResult :=
  .ok s (trade_management_payload attrs fetched rest s)

/-- ExitExecutionAgent._execute_logic (exit_execution.py lines 29-96):
skip when the entry step reported waiting/rejected, return no-action with
no open positions, and otherwise consult the gateway price inside
`_check_position_exit`, whose AttributeError is absorbed by the method's
try/except into an error payload.  No state field is written. -/
def exit_entry_status (s : TradingState) : Option String :=
  match dictGet s.agent_outputs "entry_execution" with
  | some o => some o.status
  | none => none

def exit_execution_payload (attrs : List String) (fetched : ℚ)
    (rest : ℚ → Payload) (s : TradingState) : Payload :=
  let entryStatus := exit_entry_status s
  if entryStatus = some "waiting" ∨ entryStatus = some "rejected" then
    { status := some "skipped", error := none,
      reason := some ("Entry execution status is " ++
        (entryStatus.getD "")), setups := [] }
  else
    match s.positions with
    | [] => Payload.noAction "No open positions"
    | _ :: _ =>
      match gateway_price_fetch attrs "ExitExecutionAgent" fetched with
      | .error e => Payload.ofError e.message
      | .ok price => rest price

/-- Exit execution writes no state field; its outcome is the payload
above. -/
def exit_execution_logic (attrs : List String) (fetched : ℚ)
    (rest : ℚ → Payload) (s : TradingState) : LogicResult :=
  .ok s (exit_execution_payload attrs fetched rest s)

/-- The alerts RealTimeMonitoringAgent generates from the state
(monitoring.py lines 81-130): P&L warning, risk-utilization warning,
degraded-system-health critical alert (position health returns none). -/
def monitoring_generated_alerts (pnlWarningPct riskUtilThreshold : ℚ)
    (s : TradingState) : List (String × String) :=
  (if s.session_pnl_pct ≤ pnlWarningPct then
    [("warning", "Session P&L at " ++
      pyFormatFixed 2 s.session_pnl_pct ++ "%")] else []) ++
  (if s.risk_utilization ≥ riskUtilThreshold then
    [("warning", "Risk utilization at " ++
      pyFormatFixed 1 s.risk_utilization ++ "%")] else []) ++
  (if s.system_health.status ≠ "healthy" then
    [("critical", "System health degraded")] else [])

/-- RealTimeMonitoringAgent._execute_logic (monitoring.py lines 28-79):
append every generated alert to the state via `add_alert`. -/
def monitoring_logic (pnlWarningPct riskUtilThreshold : ℚ) (r : Payload)
    (now : ℚ) (s : TradingState) : LogicResult :=
  .ok ((monitoring_generated_alerts pnlWarningPct riskUtilThreshold s).foldl
        (fun st p => add_alert "monitoring" now p.1 p.2 st) s) r

/-- The logic shape shared by session_review, performance_analytics,
learning_optimization, next_session_prep, contingency and logging_audit:
none of them writes any TradingState field (verified against their
`_execute_logic` bodies); each returns a computed payload. -/
def read_only_logic (r : Payload) (s : TradingState) : LogicResult :=
  .ok s r

/-! ## The engine's step relation

One constructor per operation the workflow engine can apply to the
shared state: the seventeen agent nodes (each wrapped by
`BaseAgent.execute`), the two control nodes, and the out-of-graph
`emergency_shutdown`.  Opaque analysis data and the operation's wall
clock are existentially captured as constructor arguments.  The
`agent_raised` constructor covers an agent whose logic raises before any
of its state writes (in every agent all fallible operations precede the
writes), the exception being absorbed by `BaseAgent.execute`. -/
inductive EngineStep : TradingState → TradingState → Prop
  | system_init_step (checksPassed : Bool) (bal : Option ℚ) (r : Payload)
      (now : ℚ) (s : TradingState) :
      EngineStep s (execute "system_init"
        (system_init_logic checksPassed bal r now) now s)
  | risk_mgmt_step (maxPositions : Nat) (maxExposurePct : ℚ)
      (consecutiveLossLimit : Nat) (r : Payload) (now : ℚ)
      (s : TradingState) :
      EngineStep s (execute "risk_mgmt"
        (risk_mgmt_logic maxPositions maxExposurePct consecutiveLossLimit
          r now) now s)
  | market_structure_step (outcome : Except PyError Payload) (now : ℚ)
      (s : TradingState) :
      EngineStep s (execute "market_structure"
        (market_structure_logic outcome) now s)
  | economic_calendar_step (restricted : Bool) (reason : String)
      (r : Payload) (now : ℚ) (s : TradingState) :
      EngineStep s (execute "economic_calendar"
        (economic_calendar_logic restricted reason r now) now s)
  | trend_definition_step (fetched : ℚ) (analysis : Payload) (now : ℚ)
      (s : TradingState) :
      EngineStep s (execute "trend_definition"
        (trend_definition_logic trendDefinitionAttrs fetched analysis)
        now s)
  | strength_weakness_step (outcome : Except PyError Payload) (now : ℚ)
      (s : TradingState) :
      EngineStep s (execute "strength_weakness"
        (strength_weakness_logic outcome) now s)
  | setup_scanner_step (scanNeedsPrice : Bool) (fetched : ℚ)
      (scanned : Payload) (now : ℚ) (s : TradingState) :
      EngineStep s (execute "setup_scanner"
        (setup_scanner_logic setupScannerAttrs scanNeedsPrice fetched
          scanned) now s)
  | entry_execution_step (fetched : ℚ) (rest : ℚ → Payload) (now : ℚ)
      (s : TradingState) :
      EngineStep s (execute "entry_execution"
        (entry_execution_logic entryExecutionAttrs fetched rest) now s)
  | trade_management_step (fetched : ℚ) (rest : ℚ → Payload) (now : ℚ)
      (s : TradingState) :
      EngineStep s (execute "trade_management"
        (trade_management_logic tradeManagementAttrs fetched rest) now s)
  | exit_execution_step (fetched : ℚ) (rest : ℚ → Payload) (now : ℚ)
      (s : TradingState) :
      EngineStep s (execute "exit_execution"
        (exit_execution_logic exitExecutionAttrs fetched rest) now s)
  | monitoring_step (pnlWarningPct riskUtilThreshold : ℚ) (r : Payload)
      (now : ℚ) (s : TradingState) :
      EngineStep s (execute "monitoring"
        (monitoring_logic pnlWarningPct riskUtilThreshold r now) now s)
  | read_only_step (aid : String) (r : Payload) (now : ℚ)
      (s : TradingState) :
      EngineStep s (execute aid (read_only_logic r) now s)
  | agent_raised_step (aid : String) (e : PyError) (now : ℚ)
      (s : TradingState) :
      EngineStep s (execute aid (fun s0 => LogicResult.raised s0 e) now s)
  | check_phase_step (durationHours nowT : ℚ) (s : TradingState) :
      EngineStep s (check_phase_transition durationHours nowT s)
  | emergency_check_step (s : TradingState) :
      EngineStep s (check_emergency s)
  | emergency_shutdown_step (reason : String) (s : TradingState) :
      EngineStep s (emergency_shutdown reason s)

/-- States reachable by the engine from the freshly initialized session
state. -/
def Reachable (cfg : Config) (sid : String) (t0 : ℚ) :
    TradingState → Prop :=
  Relation.ReflTransGen EngineStep (initialize_state cfg sid t0)

/-! ## Preservation lemmas -/

/-- The state carried by a logic outcome (the state as Python left it in
place when the logic returned or raised). -/
def LogicResult.state : LogicResult → TradingState
  | .ok s _ => s
  | .raised s _ => s

/-- Shape of every alert record the engine ever appends: the four-key
record of `add_alert`, or the critical three-key record of
`_handle_error` (no `agent_id`). -/
def goodAlert (a : Alert) : Prop :=
  a.agent_id.isSome = true ∨ (a.severity = "critical" ∧ a.agent_id = none)

/-- What every agent execution preserves: phase, the emergency latch, the
positions list and its count, the session id; and alerts grow only by
appending well-shaped records. -/
def agentPreserved (s s2 : TradingState) : Prop :=
  s2.phase = s.phase ∧
  s2.emergency_stop = s.emergency_stop ∧
  s2.positions = s.positions ∧
  s2.open_positions_count = s.open_positions_count ∧
  s2.session_id = s.session_id ∧
  ∃ t, s2.alerts = s.alerts ++ t ∧ ∀ a ∈ t, goodAlert a

/-- One-step phase movement along the forward chain. -/
def phase_chain_edge : Phase → Phase → Bool
  | .pre_market, .session_open => true
  | .session_open, .active_trading => true
  | .active_trading, .post_market => true
  | .post_market, .shutdown => true
  | _, _ => false

/-- The phase movements the claim allows for a single engine operation:
no change, one forward chain edge, or landing in shutdown with the
emergency latch set. -/
def phaseStepOK (s s2 : TradingState) : Prop :=
  s2.phase = s.phase ∨
  phase_chain_edge s.phase s2.phase = true ∨
  (s2.phase = .shutdown ∧ s2.emergency_stop = true)

/-- Alerts can only grow by appending well-shaped records. -/
def alertsAppendOnlyGood (s s2 : TradingState) : Prop :=
  ∃ t, s2.alerts = s.alerts ++ t ∧ ∀ a ∈ t, goodAlert a

/-- Status recorded for a step in `agent_outputs`, if any. -/
def recordedStatus (s : TradingState) (aid : String) : Option String :=
  (dictGet s.agent_outputs aid).map AgentOutput.status

/-- A stop reason that names the session loss limit, as required by the
emergency claim: the message begins with the phrase "Session loss limit"
(stated over the character list so it is kernel-decidable). -/
def indicates_loss_limit (r : String) : Prop :=
  r.toList.take ("Session loss limit".toList.length) =
    "Session loss limit".toList

/-- A session-open state in which the trend-definition step has already
recorded its output this cycle (under its own agent id, as
`BaseAgent._update_state` does). -/
def c3_after_trend_state : TradingState :=
  execute "trend_definition"
    (trend_definition_logic trendDefinitionAttrs (5/4)
      (Payload.ofStatus "success")) 1
    { initialize_state Config.empty "s3" 0 with phase := .session_open }

/-- A state at the session loss-limit boundary with default (non-critical)
system health. -/
def c5_boundary_state : TradingState :=
  { initialize_state Config.empty "s5" 0 with session_pnl_pct := -3 }

/-- A state at the session loss-limit boundary whose system health is
flagged critical. -/
def c5_critical_state : TradingState :=
  { initialize_state Config.empty "s5c" 0 with
    session_pnl_pct := -3,
    system_health := { status := "critical", timestamp := none } }

/-- A concrete open position for exercising the position-dependent
paths. -/
def c10_position : Position :=
  { id := none, direction := "long", entry_price := 1, stop_loss := 1,
    target_2 := none, entry_time := 0, position_size_lots := 1,
    risk_amount := none, notional_value := none }

/-- An initial-like state holding one open position. -/
def c10_exit_state : TradingState :=
  { initialize_state Config.empty "s10" 0 with
    positions := [c10_position], open_positions_count := 1 }

theorem dictGet_insert_self {α : Type} (m : List (String × α))
    (k : String) (v : α) :
    dictGet (dictInsert m k v) k = some v := by
  unfold dictInsert dictContains
  induction m with
  | nil => simp [dictGet]
  | cons p rest ih =>
    by_cases hp : p.1 = k
    · simp [dictGet, hp]
    · simp only [dictGet, hp, if_false, if_neg hp]
      by_cases hr : (dictGet rest k).isSome
      · simpa [dictGet, hr, hp] using by
          simpa [dictInsert, dictContains, hr] using ih
      · simpa [dictGet, hr, hp] using by
          simpa [dictInsert, dictContains, hr] using ih

theorem agentPreserved_refl (s : TradingState) : agentPreserved s s :=
  ⟨rfl, rfl, rfl, rfl, rfl, [], by simp, by simp⟩

theorem agentPreserved_trans {s1 s2 s3 : TradingState}
    (h12 : agentPreserved s1 s2) (h23 : agentPreserved s2 s3) :
    agentPreserved s1 s3 := by
  obtain ⟨p12, e12, q12, c12, i12, t12, a12, g12⟩ := h12
  obtain ⟨p23, e23, q23, c23, i23, t23, a23, g23⟩ := h23
  refine ⟨p23.trans p12, e23.trans e12, q23.trans q12, c23.trans c12,
    i23.trans i12, t12 ++ t23, ?_, ?_⟩
  · rw [a23, a12, List.append_assoc]
  · intro a ha
    rcases List.mem_append.mp ha with h | h
    · exact g12 a h
    · exact g23 a h

theorem agentPreserved_add_alert (aid : String) (now : ℚ)
    (sev msg : String) (s : TradingState) :
    agentPreserved s (add_alert aid now sev msg s) :=
  ⟨rfl, rfl, rfl, rfl, rfl,
   [{ severity := sev, message := msg, timestamp := now,
      agent_id := some aid }], rfl, by simp [goodAlert]⟩

theorem agentPreserved_update_state (aid : String) (now : ℚ)
    (s : TradingState) (r : Payload) :
    agentPreserved s (update_state aid now s r) :=
  ⟨rfl, rfl, rfl, rfl, rfl, [], by simp [update_state], by simp⟩

theorem agentPreserved_handle_error (aid : String) (now : ℚ)
    (s : TradingState) (e : PyError) :
    agentPreserved s (handle_error aid now s e) :=
  ⟨rfl, rfl, rfl, rfl, rfl,
   [{ severity := "critical",
      message := "Agent " ++ aid ++ " failed: " ++ e.message,
      timestamp := now, agent_id := none }], rfl,
   by simp [goodAlert]⟩

/-- BaseAgent.execute preserves the agent invariant whenever its logic's
in-place mutations do. -/
theorem agentPreserved_execute (aid : String)
    (logic : TradingState → LogicResult) (now : ℚ) (s : TradingState)
    (h : agentPreserved s (logic s).state) :
    agentPreserved s (execute aid logic now s) := by
  unfold execute
  cases hl : logic s with
  | ok s2 r =>
    have h2 : agentPreserved s s2 := by
      rw [hl] at h; exact h
    exact agentPreserved_trans h2 (agentPreserved_update_state aid now s2 r)
  | raised s2 e =>
    have h2 : agentPreserved s s2 := by
      rw [hl] at h; exact h
    exact agentPreserved_trans h2 (agentPreserved_handle_error aid now s2 e)

theorem agentPreserved_fold_add_alert (aid : String) (now : ℚ)
    (l : List (String × String)) (s : TradingState) :
    agentPreserved s
      (l.foldl (fun st p => add_alert aid now p.1 p.2 st) s) := by
  induction l generalizing s with
  | nil => exact agentPreserved_refl s
  | cons p rest ih =>
    exact agentPreserved_trans
      (agentPreserved_add_alert aid now p.1 p.2 s) (ih _)

theorem agentPreserved_system_init_logic (cp : Bool) (b : Option ℚ)
    (r : Payload) (now : ℚ) (s : TradingState) :
    agentPreserved s (system_init_logic cp b r now s).state := by
  cases cp with
  | false =>
    simpa [system_init_logic, LogicResult.state] using
      agentPreserved_add_alert "system_init" now "critical"
        "System initialization failed" s
  | true =>
    refine ⟨?_, ?_, ?_, ?_, ?_, [], ?_, by simp⟩ <;>
      simp [system_init_logic, LogicResult.state]

theorem agentPreserved_risk_mgmt_logic (mp : Nat) (me : ℚ) (cl : Nat)
    (r : Payload) (now : ℚ) (s : TradingState) :
    agentPreserved s (risk_mgmt_logic mp me cl r now s).state := by
  have hbase : agentPreserved s
      { s with risk_params := calculate_risk_parameters mp s,
               risk_utilization :=
                 (calculate_session_risk s).risk_utilization_pct } :=
    ⟨rfl, rfl, rfl, rfl, rfl, [], by simp, by simp⟩
  simp only [risk_mgmt_logic, LogicResult.state]
  split
  · split
    · exact agentPreserved_trans hbase
        (agentPreserved_add_alert _ _ _ _ _)
    · exact hbase
  · split
    · exact agentPreserved_trans
        (agentPreserved_trans hbase (agentPreserved_add_alert _ _ _ _ _))
        (agentPreserved_add_alert _ _ _ _ _)
    · exact agentPreserved_trans hbase
        (agentPreserved_add_alert _ _ _ _ _)

theorem agentPreserved_market_structure_logic
    (outcome : Except PyError Payload) (s : TradingState) :
    agentPreserved s (market_structure_logic outcome s).state := by
  cases outcome with
  | ok r =>
    refine ⟨?_, ?_, ?_, ?_, ?_, [], ?_, by simp⟩ <;>
      simp [market_structure_logic, LogicResult.state]
  | error e =>
    simpa [market_structure_logic, LogicResult.state] using
      agentPreserved_refl s

theorem agentPreserved_economic_calendar_logic (restricted : Bool)
    (reason : String) (r : Payload) (now : ℚ) (s : TradingState) :
    agentPreserved s
      (economic_calendar_logic restricted reason r now s).state := by
  cases restricted with
  | false =>
    simpa [economic_calendar_logic, LogicResult.state] using
      agentPreserved_refl s
  | true =>
    simpa [economic_calendar_logic, LogicResult.state] using
      agentPreserved_add_alert "economic_calendar" now "warning"
        ("Trading restricted: " ++ reason) s

theorem agentPreserved_trend_definition_logic (attrs : List String)
    (fetched : ℚ) (analysis : Payload) (s : TradingState) :
    agentPreserved s
      (trend_definition_logic attrs fetched analysis s).state := by
  unfold trend_definition_logic
  cases gateway_price_fetch attrs "TrendDefinitionAgent" fetched with
  | error e =>
    simpa [LogicResult.state] using agentPreserved_refl s
  | ok price =>
    refine ⟨?_, ?_, ?_, ?_, ?_, [], ?_, by simp⟩ <;>
      simp [LogicResult.state]

theorem agentPreserved_strength_weakness_logic
    (outcome : Except PyError Payload) (s : TradingState) :
    agentPreserved s (strength_weakness_logic outcome s).state := by
  cases outcome with
  | ok r =>
    refine ⟨?_, ?_, ?_, ?_, ?_, [], ?_, by simp⟩ <;>
      simp [strength_weakness_logic, LogicResult.state]
  | error e =>
    simpa [strength_weakness_logic, LogicResult.state] using
      agentPreserved_refl s

theorem agentPreserved_monitoring_logic (pw ru : ℚ) (r : Payload)
    (now : ℚ) (s : TradingState) :
    agentPreserved s (monitoring_logic pw ru r now s).state := by
  simpa [monitoring_logic, LogicResult.state] using
    agentPreserved_fold_add_alert "monitoring" now
      (monitoring_generated_alerts pw ru s) s

/-- Every engine operation preserves positions, their count, the session
id, and extends alerts only by appending well-shaped records; agent
operations moreover leave phase and the emergency latch untouched, while
the three control operations are the listed functions. -/
theorem engineStep_cases {s s2 : TradingState} (h : EngineStep s s2) :
    agentPreserved s s2 ∨
    (∃ d t, s2 = check_phase_transition d t s) ∨
    s2 = check_emergency s ∨
    (∃ rsn, s2 = emergency_shutdown rsn s) := by
  cases h with
  | system_init_step cp b r now s =>
    exact Or.inl (agentPreserved_execute _ _ _ _
      (agentPreserved_system_init_logic cp b r now s))
  | risk_mgmt_step mp me cl r now s =>
    exact Or.inl (agentPreserved_execute _ _ _ _
      (agentPreserved_risk_mgmt_logic mp me cl r now s))
  | market_structure_step outcome now s =>
    exact Or.inl (agentPreserved_execute _ _ _ _
      (agentPreserved_market_structure_logic outcome s))
  | economic_calendar_step restricted reason r now s =>
    exact Or.inl (agentPreserved_execute _ _ _ _
      (agentPreserved_economic_calendar_logic restricted reason r now s))
  | trend_definition_step fetched analysis now s =>
    exact Or.inl (agentPreserved_execute _ _ _ _
      (agentPreserved_trend_definition_logic _ fetched analysis s))
  | strength_weakness_step outcome now s =>
    exact Or.inl (agentPreserved_execute _ _ _ _
      (agentPreserved_strength_weakness_logic outcome s))
  | setup_scanner_step snp fetched scanned now s =>
    exact Or.inl (agentPreserved_execute _ _ _ _
      (agentPreserved_refl s))
  | entry_execution_step fetched rest now s =>
    exact Or.inl (agentPreserved_execute _ _ _ _
      (agentPreserved_refl s))
  | trade_management_step fetched rest now s =>
    exact Or.inl (agentPreserved_execute _ _ _ _
      (agentPreserved_refl s))
  | exit_execution_step fetched rest now s =>
    exact Or.inl (agentPreserved_execute _ _ _ _
      (agentPreserved_refl s))
  | monitoring_step pw ru r now s =>
    exact Or.inl (agentPreserved_execute _ _ _ _
      (agentPreserved_monitoring_logic pw ru r now s))
  | read_only_step aid r now s =>
    exact Or.inl (agentPreserved_execute _ _ _ _
      (agentPreserved_refl s))
  | agent_raised_step aid e now s =>
    exact Or.inl (agentPreserved_execute _ _ _ _
      (agentPreserved_refl s))
  | check_phase_step d t s =>
    exact Or.inr (Or.inl ⟨d, t, rfl⟩)
  | emergency_check_step s =>
    exact Or.inr (Or.inr (Or.inl rfl))
  | emergency_shutdown_step rsn s =>
    exact Or.inr (Or.inr (Or.inr ⟨rsn, rfl⟩))

/-- The phase-transition node touches nothing but `phase`. -/
theorem check_phase_transition_fields (d t : ℚ) (s : TradingState) :
    (check_phase_transition d t s).emergency_stop = s.emergency_stop ∧
    (check_phase_transition d t s).positions = s.positions ∧
    (check_phase_transition d t s).open_positions_count =
      s.open_positions_count ∧
    (check_phase_transition d t s).session_id = s.session_id ∧
    (check_phase_transition d t s).alerts = s.alerts := by
  unfold check_phase_transition
  cases hp : s.phase <;> simp [hp] <;> split <;> simp

/-- The emergency-check node touches nothing but the latch and the stop
reason. -/
theorem check_emergency_fields (s : TradingState) :
    (check_emergency s).phase = s.phase ∧
    (check_emergency s).positions = s.positions ∧
    (check_emergency s).open_positions_count = s.open_positions_count ∧
    (check_emergency s).session_id = s.session_id ∧
    (check_emergency s).alerts = s.alerts := by
  unfold check_emergency
  split <;> dsimp only <;> split <;> simp_all

/-- The emergency-check node never clears the latch. -/
theorem check_emergency_monotone (s : TradingState)
    (h : s.emergency_stop = true) :
    (check_emergency s).emergency_stop = true := by
  unfold check_emergency
  split <;> dsimp only <;> split <;> simp_all

/-! ## Claims -/

/-- C1: if an agent's internal logic raises, `BaseAgent.execute` returns
normally (the embedding of `execute` is total, modelling that the fault
is never propagated, so `process_cycle` cannot raise because of a step
fault), and the returned state records, under the agent's id, an entry
with status "error" carrying the error message and kind, while an alert
of severity "critical" naming the failed step and the error message is
appended to the alerts list. -/
theorem c1_execute_absorbs_step_fault (aid : String)
    (logic : TradingState → LogicResult) (now : ℚ) (s s2 : TradingState)
    (e : PyError) (h : logic s = .raised s2 e) :
    dictGet (execute aid logic now s).agent_outputs aid =
      some { timestamp := now, result := none, status := "error",
             error := some { timestamp := now, agent_id := aid,
                             error := e.message, error_type := e.kind } } ∧
    (execute aid logic now s).alerts = s2.alerts ++
      [{ severity := "critical",
         message := "Agent " ++ aid ++ " failed: " ++ e.message,
         timestamp := now, agent_id := none }] := by
  unfold execute
  rw [h]
  exact ⟨dictGet_insert_self _ _ _, rfl⟩

/-- Witness for C1 at a concrete failing agent on the initial state. -/
theorem c1_witness :
    dictGet (execute "entry_execution"
      (fun s0 => LogicResult.raised s0
        { message := "boom", kind := "ValueError" })
      1 (initialize_state Config.empty "sess" 0)).agent_outputs
      "entry_execution" =
      some { timestamp := 1, result := none, status := "error",
             error := some { timestamp := 1, agent_id := "entry_execution",
                             error := "boom", error_type := "ValueError" } } ∧
    (execute "entry_execution"
      (fun s0 => LogicResult.raised s0
        { message := "boom", kind := "ValueError" })
      1 (initialize_state Config.empty "sess" 0)).alerts =
      (initialize_state Config.empty "sess" 0).alerts ++
      [{ severity := "critical",
         message := "Agent " ++ "entry_execution" ++ " failed: " ++ "boom",
         timestamp := 1, agent_id := none }] :=
  c1_execute_absorbs_step_fault "entry_execution" _ 1
    (initialize_state Config.empty "sess" 0)
    (initialize_state Config.empty "sess" 0)
    { message := "boom", kind := "ValueError" } rfl

/-- C2: every operation of the engine's step relation moves the phase
only along the forward chain pre_market → session_open → active_trading
→ post_market → shutdown, or leaves it unchanged (in particular the
pre_market self-loop), or lands it in shutdown with the emergency latch
set (emergency_shutdown); no other phase movement is possible. -/
theorem c2_phase_transitions_allowed {s s2 : TradingState}
    (h : EngineStep s s2) : phaseStepOK s s2 := by
  rcases engineStep_cases h with hap | ⟨d, t, rfl⟩ | rfl | ⟨rsn, rfl⟩
  · exact Or.inl hap.1
  · unfold phaseStepOK check_phase_transition
    cases hp : s.phase <;>
      simp [hp, is_market_open, phase_chain_edge] <;>
      split <;> simp [hp, phase_chain_edge]
  · exact Or.inl (check_emergency_fields s).1
  · exact Or.inr (Or.inr ⟨rfl, rfl⟩)

/-- Witness for C2 at a concrete step from the initial state. -/
theorem c2_witness :
    phaseStepOK (initialize_state Config.empty "w2" 0)
      (check_emergency (initialize_state Config.empty "w2" 0)) :=
  c2_phase_transitions_allowed
    (EngineStep.emergency_check_step (initialize_state Config.empty "w2" 0))

/-- C6: the emergency router is a pure function of the state — the engine
consumes only its returned label and passes the state on unchanged — and
it answers "stop" exactly when the emergency latch is set and "continue"
exactly when it is clear. -/
theorem c6_route_emergency (s : TradingState) :
    (apply_route_emergency s).2 = s ∧
    ((apply_route_emergency s).1 = "stop" ↔ s.emergency_stop = true) ∧
    ((apply_route_emergency s).1 = "continue" ↔
      s.emergency_stop = false) := by
  refine ⟨rfl, ?_, ?_⟩ <;>
    unfold apply_route_emergency route_emergency <;>
    cases h : s.emergency_stop <;> simp [h]

/-- C7: the emergency latch is one-way within a session: every engine
operation maps a state with the latch set to a state with the latch still
set; false-to-true is the only change any operation performs. -/
theorem c7_latch_monotone {s s2 : TradingState} (h : EngineStep s s2)
    (hlatch : s.emergency_stop = true) : s2.emergency_stop = true := by
  rcases engineStep_cases h with hap | ⟨d, t, rfl⟩ | rfl | ⟨rsn, rfl⟩
  · exact hap.2.1.trans hlatch
  · exact (check_phase_transition_fields d t s).1.trans hlatch
  · exact check_emergency_monotone s hlatch
  · rfl

/-- Witness for C7 at a concrete latched state and step. -/
theorem c7_witness :
    (check_emergency
      { initialize_state Config.empty "w7" 0 with
        emergency_stop := true }).emergency_stop = true :=
  c7_latch_monotone
    (EngineStep.emergency_check_step
      { initialize_state Config.empty "w7" 0 with emergency_stop := true })
    rfl

/-- C8 counterexample: the error handler appends an alert without the
`agent_id` key.  Executing an agent whose logic raises on the initial
state leaves exactly one alert, and its `agent_id` is absent — so not
every appended alert carries all four fields. -/
theorem c8_counterexample :
    ((execute "entry_execution"
      (fun s0 => LogicResult.raised s0
        { message := "boom", kind := "ValueError" })
      1 (initialize_state Config.empty "s8" 0)).alerts.map
        Alert.agent_id) = [none] := by
  rfl

/-- C8 (amended): the alerts list is append-only under every engine
operation — existing alerts are never removed or reordered — and every
appended record carries severity, message and timestamp, and carries
`agent_id` as well except for the critical step-failure alerts appended
by the error handler, which lack `agent_id`. -/
theorem c8_alerts_append_only {s s2 : TradingState}
    (h : EngineStep s s2) : alertsAppendOnlyGood s s2 := by
  rcases engineStep_cases h with hap | ⟨d, t, rfl⟩ | rfl | ⟨rsn, rfl⟩
  · exact hap.2.2.2.2.2
  · exact ⟨[], by simp [(check_phase_transition_fields d t s).2.2.2.2],
      by simp⟩
  · exact ⟨[], by simp [(check_emergency_fields s).2.2.2.2], by simp⟩
  · exact ⟨[], by simp [emergency_shutdown], by simp⟩

/-- Witness for C8 (amended) at a concrete step. -/
theorem c8_witness :
    alertsAppendOnlyGood (initialize_state Config.empty "w8" 0)
      (execute "monitoring"
        (monitoring_logic (-2) 70 (Payload.ofStatus "success") 1)
        1 (initialize_state Config.empty "w8" 0)) :=
  c8_alerts_append_only
    (EngineStep.monitoring_step (-2) 70 (Payload.ofStatus "success") 1
      (initialize_state Config.empty "w8" 0))

/-- C9: starting from the freshly initialized session state, after every
sequence of engine operations the recorded open-position count equals the
length of the positions list (no operation of this codebase ever mutates
either, and the initial state satisfies the equation). -/
theorem c9_positions_count_invariant (cfg : Config) (sid : String)
    (t0 : ℚ) (s : TradingState) (h : Reachable cfg sid t0 s) :
    s.open_positions_count = s.positions.length := by
  unfold Reachable at h
  induction h with
  | refl => simp [initialize_state]
  | tail hsteps hstep ih =>
    rcases engineStep_cases hstep with hap | ⟨d, t, rfl⟩ | rfl | ⟨rsn, rfl⟩
    · rw [hap.2.2.2.1, hap.2.2.1]; exact ih
    · rw [(check_phase_transition_fields d t _).2.2.1,
        (check_phase_transition_fields d t _).2.1]
      exact ih
    · rw [(check_emergency_fields _).2.2.1, (check_emergency_fields _).2.1]
      exact ih
    · exact ih

/-- Witness for C9 at the initial state itself. -/
theorem c9_witness :
    (initialize_state Config.empty "w9" 0).open_positions_count =
      (initialize_state Config.empty "w9" 0).positions.length :=
  c9_positions_count_invariant Config.empty "w9" 0 _
    Relation.ReflTransGen.refl

/-! ## Continue/end router lemmas (for C4) -/

theorem routerIter_end_step (phases : Nat → Phase) (c fuel : Nat)
    (hc : c + 1 > 5) :
    routerIter phases c (fuel + 1) = some (0, c + 1) := by
  have hcond : phases c = Phase.shutdown ∨ c + 1 > 5 := Or.inr hc
  simp [routerIter, after_logging_route, hcond]

theorem routerIter_continue_step (phases : Nat → Phase) (c fuel : Nat)
    (h : phases c ≠ Phase.shutdown) (hc : c + 1 ≤ 5) :
    routerIter phases c (fuel + 1) =
      (routerIter phases (c + 1) fuel).map
        (fun kc => (kc.1 + 1, kc.2)) := by
  have hcond : ¬ (phases c = Phase.shutdown ∨ c + 1 > 5) := by
    push_neg
    exact ⟨h, by omega⟩
  have hne : ¬ (("continue" : String) = "end") := by decide
  simp only [routerIter, after_logging_route, if_neg hcond, hne,
    if_false]
  cases routerIter phases (c + 1) fuel <;> simp

theorem routerIter_from (phases : Nat → Phase)
    (hph : ∀ n, phases n ≠ Phase.shutdown) :
    ∀ fuel c, c ≤ 5 → 6 - c ≤ fuel →
      routerIter phases c fuel = some (5 - c, 6) := by
  intro fuel
  induction fuel with
  | zero => intro c h1 h2; omega
  | succ f ih =>
    intro c h1 h2
    by_cases hc : c = 5
    · subst hc
      rw [routerIter_end_step phases 5 f (by omega)]
    · rw [routerIter_continue_step phases c f (hph c) (by omega)]
      rw [ih (c + 1) (by omega) (by omega)]
      show some (5 - (c + 1) + 1, 6) = some (5 - c, 6)
      have h3 : 5 - (c + 1) + 1 = 5 - c := by omega
      rw [h3]

/-- C3 (evaluating the code at the failing input): let the trend agent
run on a session-open state; its output is recorded in agent_outputs
under its own id "trend_definition", yet the phase-transition node — which
looks for the key "trend" — leaves the phase at session_open. -/
theorem c3_session_open_never_advances :
    dictContains c3_after_trend_state.agent_outputs "trend_definition" =
      true ∧
    dictContains c3_after_trend_state.agent_outputs "trend" = false ∧
    c3_after_trend_state.phase = Phase.session_open ∧
    (check_phase_transition 3 2 c3_after_trend_state).phase =
      Phase.session_open := by
  refine ⟨?_, ?_, ?_, ?_⟩ <;> decide

/-- C4 (amended): with the cycle limit of 5 and a traversal whose phase
never reaches shutdown, the continue/end router grants the first external
invocation exactly 5 internal loop-backs before forcing "end" (the
traversal terminates — `some`, no recursion-limit fault); but the counter
is never reset, so any traversal resuming from a counter at or past the
limit is granted 0 loop-backs: the budget is shared across the
orchestrator's lifetime, not renewed per invocation. -/
theorem c4_cycle_budget (phases : Nat → Phase)
    (h : ∀ n, phases n ≠ Phase.shutdown) :
    routerIter phases 0 100 = some (5, 6) ∧
    ∀ c, 5 ≤ c → routerIter phases c 100 = some (0, c + 1) := by
  constructor
  · exact routerIter_from phases h 100 0 (by omega) (by omega)
  · intro c hc
    exact routerIter_end_step phases c 99 (by omega)

/-- C4 counterexample: two consecutive `process_cycle` invocations on
phases that never reach shutdown — the first gets its 5 loop-backs, the
second gets 0, refuting "each external invocation gets the full
budget". -/
theorem c4_counterexample :
    twoCycleLoopBacks (fun _ => Phase.pre_market)
      (fun _ => Phase.pre_market) = some (5, 0) ∧ (5 : Nat) ≠ 0 := by
  exact ⟨by decide, by decide⟩

/-- Witness for C4 (amended) at concrete phase streams. -/
theorem c4_witness :
    routerIter (fun _ => Phase.pre_market) 0 100 = some (5, 6) ∧
    routerIter (fun _ => Phase.pre_market) 6 100 = some (0, 7) := by
  have h := c4_cycle_budget (fun _ => Phase.pre_market)
    (fun _ hcontra => Phase.noConfusion hcontra)
  exact ⟨h.1, h.2 6 (by omega)⟩

/-- C5 counterexample: at the loss-limit boundary but with system health
flagged critical, the health branch of the emergency check overwrites the
stop reason, so the returned reason no longer indicates the loss limit —
refuting the claim for arbitrary states with those two field values. -/
theorem c5_counterexample :
    c5_critical_state.max_session_risk_pct = 3 ∧
    c5_critical_state.session_pnl_pct = -3 ∧
    (check_emergency c5_critical_state).emergency_stop = true ∧
    (check_emergency c5_critical_state).stop_reason =
      some "Critical system health issue" ∧
    ∀ r, (check_emergency c5_critical_state).stop_reason = some r →
      ¬ indicates_loss_limit r := by
  refine ⟨by decide, by decide, by decide, by decide, ?_⟩
  intro r hr
  have h2 : (check_emergency c5_critical_state).stop_reason =
      some "Critical system health issue" := by decide
  rw [h2] at hr
  have hre : r = "Critical system health issue" :=
    (Option.some.injEq _ _ ▸ hr).symm
  subst hre
  unfold indicates_loss_limit
  decide

/-- C5 (amended): at the loss-limit boundary (`max_session_risk_pct = 3`,
`session_pnl_pct = -3`, the `≤` comparison holding with equality),
provided system health is not flagged critical, the emergency check sets
the latch and a non-empty stop reason indicating the session loss
limit. -/
theorem c5_emergency_loss_limit (s : TradingState)
    (h1 : s.max_session_risk_pct = 3) (h2 : s.session_pnl_pct = -3)
    (h3 : ¬ (s.system_health.status = "critical")) :
    (check_emergency s).emergency_stop = true ∧
    ∃ r, (check_emergency s).stop_reason = some r ∧ r ≠ "" ∧
      indicates_loss_limit r := by
  have hcond : s.session_pnl_pct ≤ -s.max_session_risk_pct := by
    rw [h1, h2]
  have hstep : check_emergency s =
      { s with emergency_stop := true,
               stop_reason := some ("Session loss limit reached: " ++
                 pyFormatFixed 2 s.session_pnl_pct ++ "%") } := by
    unfold check_emergency
    rw [if_pos hcond]
    exact if_neg h3
  rw [hstep, h2]
  refine ⟨rfl, _, rfl, ?_, ?_⟩
  · decide
  · unfold indicates_loss_limit
    decide

/-- Witness for C5 (amended) at the concrete boundary state. -/
theorem c5_witness :
    (check_emergency c5_boundary_state).emergency_stop = true ∧
    ∃ r, (check_emergency c5_boundary_state).stop_reason = some r ∧
      r ≠ "" ∧ indicates_loss_limit r :=
  c5_emergency_loss_limit c5_boundary_state (by decide) (by decide)
    (by decide)

/-- The common price-fetch prologue fails with AttributeError for any
attribute list not containing `gateway_client`. -/
theorem gateway_fetch_error_of_not_mem (attrs : List String)
    (cn : String) (f : ℚ) (h : "gateway_client" ∉ attrs) :
    gateway_price_fetch attrs cn f = .error
      { message := cn ++ " object has no attribute " ++ "gateway_client",
        kind := "AttributeError" } := by
  unfold gateway_price_fetch attribute_lookup
  rw [if_neg h]

/-- C10: `BaseAgent.__init__` (and the subclass constructors) never
assign `gateway_client`, so for each of the five agents consulting
`self.gateway_client` the price-fetch prologue raises AttributeError on
every path reaching it; the fault is absorbed by the step's own
catch-and-record handling, so the step's recorded `agent_outputs` entry
for such an execution carries status "error" instead of a real gateway
result (shown for the trend-definition, trade-management, exit-execution
and entry-execution paths that reach the access). -/
theorem c10_gateway_client_never_assigned :
    ("gateway_client" ∉ baseAgentAttrs ∧
     "gateway_client" ∉ entryExecutionAttrs ∧
     "gateway_client" ∉ exitExecutionAttrs ∧
     "gateway_client" ∉ trendDefinitionAttrs ∧
     "gateway_client" ∉ setupScannerAttrs ∧
     "gateway_client" ∉ tradeManagementAttrs) ∧
    (∀ attrs ∈ [entryExecutionAttrs, exitExecutionAttrs,
        trendDefinitionAttrs, setupScannerAttrs, tradeManagementAttrs],
      ∀ cn : String, ∀ f : ℚ,
        ∃ e, gateway_price_fetch attrs cn f = .error e ∧
          e.kind = "AttributeError") ∧
    (∀ (f : ℚ) (analysis : Payload) (now : ℚ) (s : TradingState),
      recordedStatus (execute "trend_definition"
        (trend_definition_logic trendDefinitionAttrs f analysis) now s)
        "trend_definition" = some "error") ∧
    (∀ (f : ℚ) (rest : ℚ → Payload) (now : ℚ) (s : TradingState),
      s.positions ≠ [] →
      recordedStatus (execute "trade_management"
        (trade_management_logic tradeManagementAttrs f rest) now s)
        "trade_management" = some "error") ∧
    (∀ (f : ℚ) (rest : ℚ → Payload) (now : ℚ) (s : TradingState),
      exit_entry_status s ≠ some "waiting" →
      exit_entry_status s ≠ some "rejected" → s.positions ≠ [] →
      recordedStatus (execute "exit_execution"
        (exit_execution_logic exitExecutionAttrs f rest) now s)
        "exit_execution" = some "error") ∧
    (∀ (f : ℚ) (rest : ℚ → Payload) (now : ℚ) (s : TradingState)
        (o : AgentOutput) (p : Payload) (best : Setup) (tl : List Setup),
      dictGet s.agent_outputs "setup_scanner" = some o →
      o.result = some p → p.setups = best :: tl →
      best.setup_type = "pullback" →
      recordedStatus (execute "entry_execution"
        (entry_execution_logic entryExecutionAttrs f rest) now s)
        "entry_execution" = some "error") := by
  refine ⟨⟨by decide, by decide, by decide, by decide, by decide,
    by decide⟩, ?_, ?_, ?_, ?_, ?_⟩
  · intro attrs hmem cn f
    refine ⟨{ message := cn ++ " object has no attribute " ++
        "gateway_client", kind := "AttributeError" }, ?_, rfl⟩
    simp only [List.mem_cons, List.not_mem_nil, or_false] at hmem
    rcases hmem with rfl | rfl | rfl | rfl | rfl
    · exact gateway_fetch_error_of_not_mem _ cn f (by decide)
    · exact gateway_fetch_error_of_not_mem _ cn f (by decide)
    · exact gateway_fetch_error_of_not_mem _ cn f (by decide)
    · exact gateway_fetch_error_of_not_mem _ cn f (by decide)
    · exact gateway_fetch_error_of_not_mem _ cn f (by decide)
  · intro f analysis now s
    have hfetch := gateway_fetch_error_of_not_mem trendDefinitionAttrs
      "TrendDefinitionAgent" f (by decide)
    unfold recordedStatus execute trend_definition_logic
    rw [hfetch]
    simp [update_state, dictGet_insert_self, Payload.ofError]
  · intro f rest now s hpos
    have hfetch := gateway_fetch_error_of_not_mem tradeManagementAttrs
      "TradeManagementAgent" f (by decide)
    cases hp : s.positions with
    | nil => exact absurd hp hpos
    | cons a l =>
      unfold recordedStatus execute trade_management_logic
      simp [trade_management_payload, hp, hfetch, update_state,
        dictGet_insert_self, Payload.ofError]
  · intro f rest now s h1 h2 hpos
    have hfetch := gateway_fetch_error_of_not_mem exitExecutionAttrs
      "ExitExecutionAgent" f (by decide)
    have hcond : ¬ (exit_entry_status s = some "waiting" ∨
        exit_entry_status s = some "rejected") :=
      fun h => h.elim h1 h2
    cases hp : s.positions with
    | nil => exact absurd hp hpos
    | cons a l =>
      unfold recordedStatus execute exit_execution_logic
      simp [exit_execution_payload, hcond, hp, hfetch, update_state,
        dictGet_insert_self, Payload.ofError]
  · intro f rest now s o p best tl hscan hres hsetups htype
    have hfetch := gateway_fetch_error_of_not_mem entryExecutionAttrs
      "EntryExecutionAgent" f (by decide)
    unfold recordedStatus execute entry_execution_logic
    simp [entry_execution_payload, hscan, hres, hsetups, htype, hfetch,
      update_state, dictGet_insert_self, Payload.ofError]

/-- Witness for C10 at concrete inputs reaching the gateway access. -/
theorem c10_witness :
    recordedStatus (execute "trade_management"
      (trade_management_logic tradeManagementAttrs (5/4)
        (fun _ => Payload.ofStatus "success")) 1 c10_exit_state)
      "trade_management" = some "error" ∧
    recordedStatus (execute "trend_definition"
      (trend_definition_logic trendDefinitionAttrs (5/4)
        (Payload.ofStatus "success")) 1
      (initialize_state Config.empty "w10" 0)) "trend_definition" =
      some "error" := by
  have h := c10_gateway_client_never_assigned
  exact ⟨h.2.2.2.1 (5/4) (fun _ => Payload.ofStatus "success") 1
      c10_exit_state (by simp [c10_exit_state]),
    h.2.2.1 (5/4) (Payload.ofStatus "success") 1
      (initialize_state Config.empty "w10" 0)⟩

end YTC
